import Mathlib

/-!
Formal model of the book ingestion backend in src/main.py.

The handler upload_book is a linear pipeline of calls to external
services: a temp-file write, an inference call, a JSON parse, a
relational insert with commit, and a spreadsheet append, wrapped in a
single try/except/finally.  Each external call is modelled by an
oracle field giving its outcome for the request; the handler itself is
translated statement by statement.  State (the books table, the
spreadsheet, the temp file flags) is threaded explicitly, and every
attempted external call is recorded in an event trace.
-/

namespace HomeLibrary

/-- JSON values as produced by the parse of the inference response.
Objects are association lists of fields. -/
inductive Json where
  | null : Json
  | bool : Bool → Json
  | num : Int → Json
  | str : String → Json
  | arr : List Json → Json
  | obj : List (String × Json) → Json

/-- Field lookup in a JSON object field list. -/
def lookupField : List (String × Json) → String → Option Json
  | [], _ => none
  | (k, v) :: rest, key => if k = key then some v else lookupField rest key

/-- Subscript access book_data[key]: succeeds only on objects that have
the field, mirroring the KeyError / TypeError of a Python dict access. -/
def Json.lookup : Json → String → Option Json
  | Json.obj fields, key => lookupField fields key
  | _, _ => none

/-- One appended spreadsheet row: [new_id, title, genre, added_at]
as built on line 110 of src/main.py. -/
abbrev SheetRow := Int × Json × Json × String

/-- The spreadsheet opened at module start: a name and named worksheets. -/
structure Spreadsheet where
  ssName : String
  worksheets : List (String × List SheetRow)

/-- Worksheet lookup by title (first match), as sheet.worksheet does. -/
def findWs : List (String × List SheetRow) → String → Option (List SheetRow)
  | [], _ => none
  | (k, v) :: rest, w => if k = w then some v else findWs rest w

/-- Append a row to the first worksheet with the given title. -/
def appendWs : List (String × List SheetRow) → String → SheetRow → List (String × List SheetRow)
  | [], _, _ => []
  | (k, v) :: rest, w, row =>
      if k = w then (k, v ++ [row]) :: rest else (k, v) :: appendWs rest w row

def Spreadsheet.wsRows (sp : Spreadsheet) (w : String) : Option (List SheetRow) :=
  findWs sp.worksheets w

def Spreadsheet.appendToWs (sp : Spreadsheet) (w : String) (row : SheetRow) : Spreadsheet :=
  { sp with worksheets := appendWs sp.worksheets w row }

/-- A wall-clock instant as read by datetime.now(). -/
structure DateTime where
  year : Nat
  month : Nat
  day : Nat
  hour : Nat
  minute : Nat
  second : Nat

/-- Zero padding to two digits, as the %m %d %H %M %S directives do. -/
def pad2 (n : Nat) : String :=
  if n < 10 then "0" ++ toString n else toString n

/-- Zero padding to four digits, as the %Y directive does. -/
def pad4 (n : Nat) : String :=
  if n < 10 then "000" ++ toString n
  else if n < 100 then "00" ++ toString n
  else if n < 1000 then "0" ++ toString n
  else toString n

/-- strftime with the format string of line 109 of src/main.py. -/
def strftimeUS (d : DateTime) : String :=
  pad2 d.month ++ "/" ++ pad2 d.day ++ "/" ++ pad4 d.year ++ " " ++
  pad2 d.hour ++ ":" ++ pad2 d.minute ++ ":" ++ pad2 d.second

/-- The fixed spreadsheet title of line 27 of src/main.py. -/
def SHEET_NAME : String := "Family_Library_Books"

/-- The fixed worksheet title of line 108 of src/main.py. -/
def WORKSHEET_TITLE : String := "Sheet1"

/-- The success message of line 116 of src/main.py. -/
def SUCCESS_MESSAGE : String := "Book inserted successfully!"

/-- The environment variables the program reads. -/
structure Env where
  DB_HOST : Option String
  DB_NAME : Option String
  DB_USER : Option String
  DB_PASS : Option String
  GEMINI_API_KEY : Option String

/-- Python truthiness of an os.getenv result: None and the empty string
are falsy, every other string is truthy. -/
def pyTruthy : Option String → Bool
  | none => false
  | some s => !s.isEmpty

def DB_ENV_ERROR : String := "Missing one or more required database environment variables"

/-- The module level check of lines 39 and 40 of src/main.py: raise when
not all of the four database variables are truthy.  An error here means
the module fails to import and the process never serves the endpoint. -/
def startupCheck (e : Env) : Except String Unit :=
  if pyTruthy e.DB_HOST && pyTruthy e.DB_NAME && pyTruthy e.DB_USER && pyTruthy e.DB_PASS
  then Except.ok () else Except.error DB_ENV_ERROR

/-- External call attempts made during one request, in program order. -/
inductive Event where
  | tempCreate
  | tempWrite
  | geminiUpload
  | geminiGenerate
  | dbConnect
  | dbInsert
  | dbCommit
  | wsLookup
  | sheetAppend
deriving DecidableEq

/-- Outcomes of the external calls for one request.  An error value is
the message of the exception the call raises. -/
structure Oracle where
  createTemp : Except String Unit
  readUpload : Except String Unit
  geminiUpload : Except String Unit
  geminiGenerate : Except String Unit
  parseResult : Except String Json
  dbConnect : Except String Unit
  dbInsert : Except String Int
  dbCommit : Except String Unit
  sheetAppend : Except String Unit
  now : DateTime

/-- Observable durable state around one request: committed rows of the
books table, the spreadsheet contents, and the temp file status. -/
structure SysState where
  books : List (Int × Json × Json)
  spreadsheet : Spreadsheet
  tempExists : Bool
  tempPathAssigned : Bool

/-- The try block of upload_book, lines 64 to 117 of src/main.py,
returning the final state, the external calls attempted, and either the
parsed book data for the success return or the message of the raised
exception.  Mirrors the source order: temp file creation, upload body
read and write (temp_path is assigned only after the write returns),
Gemini file upload, generate_content, json.loads, connect, the two dict
subscripts evaluated while building the execute arguments, insert with
RETURNING id, commit (only then is the row durable), worksheet lookup,
append_row, success return. -/
def runBody (o : Oracle) (s : SysState) : SysState × List Event × Except String Json :=
  match o.createTemp with
  | .error m => (s, [.tempCreate], .error m)
  | .ok _ =>
    let s1 : SysState := { s with tempExists := true }
    match o.readUpload with
    | .error m => (s1, [.tempCreate, .tempWrite], .error m)
    | .ok _ =>
      let s2 : SysState := { s1 with tempPathAssigned := true }
      match o.geminiUpload with
      | .error m => (s2, [.tempCreate, .tempWrite, .geminiUpload], .error m)
      | .ok _ =>
        match o.geminiGenerate with
        | .error m => (s2, [.tempCreate, .tempWrite, .geminiUpload, .geminiGenerate], .error m)
        | .ok _ =>
          match o.parseResult with
          | .error m => (s2, [.tempCreate, .tempWrite, .geminiUpload, .geminiGenerate], .error m)
          | .ok book =>
            match o.dbConnect with
            | .error m =>
                (s2, [.tempCreate, .tempWrite, .geminiUpload, .geminiGenerate, .dbConnect],
                 .error m)
            | .ok _ =>
              match book.lookup "title" with
              | none =>
                  (s2, [.tempCreate, .tempWrite, .geminiUpload, .geminiGenerate, .dbConnect],
                   .error "KeyError: title")
              | some t =>
                match book.lookup "genre" with
                | none =>
                    (s2, [.tempCreate, .tempWrite, .geminiUpload, .geminiGenerate, .dbConnect],
                     .error "KeyError: genre")
                | some g =>
                  match o.dbInsert with
                  | .error m =>
                      (s2, [.tempCreate, .tempWrite, .geminiUpload, .geminiGenerate,
                            .dbConnect, .dbInsert], .error m)
                  | .ok newId =>
                    match o.dbCommit with
                    | .error m =>
                        (s2, [.tempCreate, .tempWrite, .geminiUpload, .geminiGenerate,
                              .dbConnect, .dbInsert, .dbCommit], .error m)
                    | .ok _ =>
                      let s3 : SysState := { s2 with books := s2.books ++ [(newId, t, g)] }
                      match s3.spreadsheet.wsRows WORKSHEET_TITLE with
                      | none =>
                          (s3, [.tempCreate, .tempWrite, .geminiUpload, .geminiGenerate,
                                .dbConnect, .dbInsert, .dbCommit, .wsLookup],
                           .error "WorksheetNotFound")
                      | some _ =>
                        let row : SheetRow := (newId, t, g, strftimeUS o.now)
                        match o.sheetAppend with
                        | .error m =>
                            (s3, [.tempCreate, .tempWrite, .geminiUpload, .geminiGenerate,
                                  .dbConnect, .dbInsert, .dbCommit, .wsLookup, .sheetAppend],
                             .error m)
                        | .ok _ =>
                          let s4 : SysState :=
                            { s3 with spreadsheet := s3.spreadsheet.appendToWs WORKSHEET_TITLE row }
                          (s4, [.tempCreate, .tempWrite, .geminiUpload, .geminiGenerate,
                                .dbConnect, .dbInsert, .dbCommit, .wsLookup, .sheetAppend],
                           .ok book)

/-- The finally block, lines 121 to 124 of src/main.py: remove the temp
file only when the temp_path local was assigned and the path exists. -/
def cleanupTemp (s : SysState) : SysState :=
  if s.tempPathAssigned && s.tempExists then { s with tempExists := false } else s

/-- The HTTP outcome of one request: the success JSON body of lines 113
to 117, or the HTTPException of line 120 with its status code and detail. -/
inductive HResult where
  | success (book : Json) (message : String)
  | httpError (code : Nat) (detail : String)

/-- The whole handler upload_book: run the try body, run the finally
cleanup on every path, then either return the success body or convert
the caught exception into HTTPException(status_code=500, detail=str(e)). -/
def upload_book (o : Oracle) (s : SysState) : SysState × List Event × HResult :=
  let r := runBody o s
  (cleanupTemp r.1, r.2.1,
    match r.2.2 with
    | .ok book => HResult.success book SUCCESS_MESSAGE
    | .error m => HResult.httpError 500 m)

/-- A fresh state: empty books table, the fixed-name spreadsheet with an
empty Sheet1 worksheet, no temp file. -/
def initState : SysState :=
  { books := []
    spreadsheet := { ssName := SHEET_NAME, worksheets := [(WORKSHEET_TITLE, [])] }
    tempExists := false
    tempPathAssigned := false }

/-- The parsed inference output of the concrete scenario in the spec. -/
def demoBook : Json :=
  Json.obj [("title", Json.str "Dune"), ("genre", Json.str "Science Fiction")]

def demoNow : DateTime :=
  { year := 2025, month := 10, day := 12, hour := 14, minute := 30, second := 5 }

/-- A request in which every external call succeeds. -/
def okOracle : Oracle :=
  { createTemp := .ok ()
    readUpload := .ok ()
    geminiUpload := .ok ()
    geminiGenerate := .ok ()
    parseResult := .ok demoBook
    dbConnect := .ok ()
    dbInsert := .ok 7
    dbCommit := .ok ()
    sheetAppend := .ok ()
    now := demoNow }

def connFailOracle : Oracle := { okOracle with dbConnect := .error "connection refused" }

def parseFailOracle : Oracle := { okOracle with parseResult := .error "Expecting value" }

def readFailOracle : Oracle := { okOracle with readUpload := .error "client disconnected during read" }

def sheetFailOracle : Oracle := { okOracle with sheetAppend := .error "quota exceeded" }

def generateFailOracle : Oracle := { okOracle with geminiGenerate := .error "inference timeout" }

/-- A parsed inference output carrying a third field beyond the schema. -/
def extraFieldBook : Json :=
  Json.obj [("title", Json.str "Dune"), ("genre", Json.str "Science Fiction"),
            ("author", Json.str "Frank Herbert")]

def extraFieldOracle : Oracle := { okOracle with parseResult := .ok extraFieldBook }

/-- An environment with the four database variables set and the
inference API key absent. -/
def envNoApiKey : Env :=
  { DB_HOST := some "localhost"
    DB_NAME := some "library"
    DB_USER := some "admin"
    DB_PASS := some "secret"
    GEMINI_API_KEY := none }

def envNoHost : Env := { envNoApiKey with DB_HOST := none, GEMINI_API_KEY := some "key" }

def dbInsertFailOracle : Oracle := { okOracle with dbInsert := .error "duplicate key" }

/-- The finally block never touches the books table. -/
theorem cleanupTemp_books (s : SysState) : (cleanupTemp s).books = s.books := by
  unfold cleanupTemp
  split <;> rfl

/-- The finally block never touches the spreadsheet. -/
theorem cleanupTemp_spreadsheet (s : SysState) : (cleanupTemp s).spreadsheet = s.spreadsheet := by
  unfold cleanupTemp
  split <;> rfl

/-- The event trace of the whole handler is the trace of the try body. -/
theorem upload_book_events (o : Oracle) (s : SysState) :
    (upload_book o s).2.1 = (runBody o s).2.1 := rfl

/-- The final state of the whole handler is the body state after cleanup. -/
theorem upload_book_state (o : Oracle) (s : SysState) :
    (upload_book o s).1 = cleanupTemp (runBody o s).1 := rfl

/-- The trace of a request is always one of nine prefixes of the full
pipeline trace, one per stage at which the body can stop. -/
theorem runBody_events_shape (o : Oracle) (s : SysState) :
    (runBody o s).2.1 ∈ [
      [Event.tempCreate],
      [Event.tempCreate, Event.tempWrite],
      [Event.tempCreate, Event.tempWrite, Event.geminiUpload],
      [Event.tempCreate, Event.tempWrite, Event.geminiUpload, Event.geminiGenerate],
      [Event.tempCreate, Event.tempWrite, Event.geminiUpload, Event.geminiGenerate,
       Event.dbConnect],
      [Event.tempCreate, Event.tempWrite, Event.geminiUpload, Event.geminiGenerate,
       Event.dbConnect, Event.dbInsert],
      [Event.tempCreate, Event.tempWrite, Event.geminiUpload, Event.geminiGenerate,
       Event.dbConnect, Event.dbInsert, Event.dbCommit],
      [Event.tempCreate, Event.tempWrite, Event.geminiUpload, Event.geminiGenerate,
       Event.dbConnect, Event.dbInsert, Event.dbCommit, Event.wsLookup],
      [Event.tempCreate, Event.tempWrite, Event.geminiUpload, Event.geminiGenerate,
       Event.dbConnect, Event.dbInsert, Event.dbCommit, Event.wsLookup, Event.sheetAppend]] := by
  unfold runBody
  rcases hct : o.createTemp with m | u
  · simp [hct]
  rcases hru : o.readUpload with m | u2
  · simp [hct, hru]
  rcases hgu : o.geminiUpload with m | u3
  · simp [hct, hru, hgu]
  rcases hgg : o.geminiGenerate with m | u4
  · simp [hct, hru, hgu, hgg]
  rcases hpr : o.parseResult with m | book
  · simp [hct, hru, hgu, hgg, hpr]
  rcases hdc : o.dbConnect with m | u5
  · simp [hct, hru, hgu, hgg, hpr, hdc]
  rcases hT : book.lookup "title" with _ | t
  · simp [hct, hru, hgu, hgg, hpr, hdc, hT]
  rcases hG : book.lookup "genre" with _ | g
  · simp [hct, hru, hgu, hgg, hpr, hdc, hT, hG]
  rcases hdi : o.dbInsert with m | newId
  · simp [hct, hru, hgu, hgg, hpr, hdc, hT, hG, hdi]
  rcases hcm : o.dbCommit with m | u6
  · simp [hct, hru, hgu, hgg, hpr, hdc, hT, hG, hdi, hcm]
  rcases hW : s.spreadsheet.wsRows WORKSHEET_TITLE with _ | rs
  · simp [hct, hru, hgu, hgg, hpr, hdc, hT, hG, hdi, hcm, hW]
  rcases hsa : o.sheetAppend with m | u7
  · simp [hct, hru, hgu, hgg, hpr, hdc, hT, hG, hdi, hcm, hW, hsa]
  simp [hct, hru, hgu, hgg, hpr, hdc, hT, hG, hdi, hcm, hW, hsa]

/-- No external call is attempted twice in one request. -/
theorem runBody_events_nodup (o : Oracle) (s : SysState) : (runBody o s).2.1.Nodup := by
  have h := runBody_events_shape o s
  simp only [List.mem_cons, List.not_mem_nil, or_false] at h
  rcases h with h|h|h|h|h|h|h|h|h <;> rw [h] <;> decide

/-- Appending to a worksheet extends exactly that worksheet. -/
theorem findWs_appendWs_self (l : List (String × List SheetRow)) (w : String) (row : SheetRow)
    (rs : List SheetRow) (h : findWs l w = some rs) :
    findWs (appendWs l w row) w = some (rs ++ [row]) := by
  induction l with
  | nil => simp [findWs] at h
  | cons p rest ih =>
    obtain ⟨k, v⟩ := p
    by_cases hk : k = w
    · subst hk
      simp [findWs] at h
      simp [appendWs, findWs, h]
    · simp [findWs, hk] at h
      simp [appendWs, findWs, hk, ih h]

/-- Appending to one worksheet leaves every other worksheet unchanged. -/
theorem findWs_appendWs_other (l : List (String × List SheetRow)) (w w2 : String) (row : SheetRow)
    (h : w2 ≠ w) :
    findWs (appendWs l w row) w2 = findWs l w2 := by
  induction l with
  | nil => simp [appendWs]
  | cons p rest ih =>
    obtain ⟨k, v⟩ := p
    by_cases hk : k = w
    · subst hk
      simp [appendWs, findWs, Ne.symm h]
    · by_cases hk2 : k = w2
      · subst hk2
        simp [appendWs, findWs, hk]
      · simp [appendWs, findWs, hk, hk2, ih]

theorem wsRows_appendToWs_self (sp : Spreadsheet) (w : String) (row : SheetRow)
    (rs : List SheetRow) (h : sp.wsRows w = some rs) :
    (sp.appendToWs w row).wsRows w = some (rs ++ [row]) :=
  findWs_appendWs_self sp.worksheets w row rs h

theorem wsRows_appendToWs_other (sp : Spreadsheet) (w w2 : String) (row : SheetRow)
    (h : w2 ≠ w) :
    (sp.appendToWs w row).wsRows w2 = sp.wsRows w2 :=
  findWs_appendWs_other sp.worksheets w w2 row h

theorem appendToWs_ssName (sp : Spreadsheet) (w : String) (row : SheetRow) :
    (sp.appendToWs w row).ssName = sp.ssName := rfl

/-- Claim C1: when the inference service returns valid JSON whose title
and genre fields are non-empty strings and the store insert, commit and
sheet append all succeed, upload_book returns the success body carrying
the parsed book with that title and genre and the fixed message, and
exactly one new row with those values is inserted into the books table. -/
theorem C1_success_response_and_single_insert
    (o : Oracle) (s0 : SysState) (book : Json) (t g : String) (newId : Int)
    (rs : List SheetRow)
    (hct : o.createTemp = .ok ()) (hru : o.readUpload = .ok ())
    (hgu : o.geminiUpload = .ok ()) (hgg : o.geminiGenerate = .ok ())
    (hpr : o.parseResult = .ok book)
    (hT : book.lookup "title" = some (Json.str t))
    (hG : book.lookup "genre" = some (Json.str g))
    (_hTne : t ≠ "") (_hGne : g ≠ "")
    (hdc : o.dbConnect = .ok ()) (hdi : o.dbInsert = .ok newId)
    (hcm : o.dbCommit = .ok ())
    (hW : s0.spreadsheet.wsRows WORKSHEET_TITLE = some rs)
    (hsa : o.sheetAppend = .ok ()) :
    (upload_book o s0).2.2 = HResult.success book SUCCESS_MESSAGE ∧
    (upload_book o s0).1.books = s0.books ++ [(newId, Json.str t, Json.str g)] := by
  unfold upload_book
  simp [runBody, hct, hru, hgu, hgg, hpr, hT, hG, hdc, hdi, hcm, hW, hsa,
        cleanupTemp_books]

/-- Claim C1 witness: the concrete Dune scenario with every call
succeeding, starting from the fresh state. -/
theorem C1_success_response_and_single_insert_witness :
    (upload_book okOracle initState).2.2 = HResult.success demoBook SUCCESS_MESSAGE ∧
    (upload_book okOracle initState).1.books =
      initState.books ++ [(7, Json.str "Dune", Json.str "Science Fiction")] :=
  C1_success_response_and_single_insert okOracle initState demoBook "Dune" "Science Fiction" 7 []
    rfl rfl rfl rfl rfl rfl rfl (by decide) (by decide) rfl rfl rfl rfl rfl

/-- Claim C2: in every request a sheet append attempt, when present in
the trace, comes strictly after a store insert attempt; and when the
connect or the insert fails, no sheet append is attempted and the
spreadsheet is unchanged. -/
theorem C2_insert_before_append (o : Oracle) (s0 : SysState) :
    (Event.sheetAppend ∈ (upload_book o s0).2.1 →
      ∃ pre post, (upload_book o s0).2.1 = pre ++ Event.sheetAppend :: post ∧
        Event.dbInsert ∈ pre) ∧
    (∀ m, (o.dbConnect = .error m ∨ o.dbInsert = .error m) →
      Event.sheetAppend ∉ (upload_book o s0).2.1 ∧
      (upload_book o s0).1.spreadsheet = s0.spreadsheet) := by
  constructor
  · intro hmem
    rw [upload_book_events] at hmem ⊢
    have h := runBody_events_shape o s0
    simp only [List.mem_cons, List.not_mem_nil, or_false] at h
    rcases h with h|h|h|h|h|h|h|h|h <;> rw [h] at hmem ⊢ <;>
      first
      | exact absurd hmem (by decide)
      | exact ⟨[Event.tempCreate, Event.tempWrite, Event.geminiUpload, Event.geminiGenerate,
                Event.dbConnect, Event.dbInsert, Event.dbCommit, Event.wsLookup], [],
               by decide, by decide⟩
  · intro m hm
    rw [upload_book_events, upload_book_state, cleanupTemp_spreadsheet]
    unfold runBody
    rcases hct : o.createTemp with m2 | u
    · simp [hct]
    rcases hru : o.readUpload with m2 | u2
    · simp [hct, hru]
    rcases hgu : o.geminiUpload with m2 | u3
    · simp [hct, hru, hgu]
    rcases hgg : o.geminiGenerate with m2 | u4
    · simp [hct, hru, hgu, hgg]
    rcases hpr : o.parseResult with m2 | book
    · simp [hct, hru, hgu, hgg, hpr]
    rcases hm with hm | hm
    · simp [hct, hru, hgu, hgg, hpr, hm]
    rcases hdc : o.dbConnect with m2 | u5
    · simp [hct, hru, hgu, hgg, hpr, hdc]
    rcases hT : book.lookup "title" with _ | t
    · simp [hct, hru, hgu, hgg, hpr, hdc, hT]
    rcases hG : book.lookup "genre" with _ | g
    · simp [hct, hru, hgu, hgg, hpr, hdc, hT, hG]
    simp [hct, hru, hgu, hgg, hpr, hdc, hT, hG, hm]

/-- Claim C2 witness: with a failing connect no append is attempted and
the spreadsheet is unchanged. -/
theorem C2_insert_before_append_witness :
    Event.sheetAppend ∉ (upload_book connFailOracle initState).2.1 ∧
    (upload_book connFailOracle initState).1.spreadsheet = initState.spreadsheet :=
  (C2_insert_before_append connFailOracle initState).2 "connection refused" (Or.inl rfl)

/-- Claim C3: when the inference text does not parse as JSON the handler
returns a failure response, the books table and the spreadsheet are
unchanged, and no connect, insert or append is even attempted. -/
theorem C3_invalid_json_no_mutation
    (o : Oracle) (s0 : SysState) (m : String)
    (hct : o.createTemp = .ok ()) (hru : o.readUpload = .ok ())
    (hgu : o.geminiUpload = .ok ()) (hgg : o.geminiGenerate = .ok ())
    (hpr : o.parseResult = .error m) :
    (upload_book o s0).2.2 = HResult.httpError 500 m ∧
    (upload_book o s0).1.books = s0.books ∧
    (upload_book o s0).1.spreadsheet = s0.spreadsheet ∧
    Event.dbConnect ∉ (upload_book o s0).2.1 ∧
    Event.dbInsert ∉ (upload_book o s0).2.1 ∧
    Event.sheetAppend ∉ (upload_book o s0).2.1 := by
  unfold upload_book
  simp [runBody, hct, hru, hgu, hgg, hpr, cleanupTemp_books, cleanupTemp_spreadsheet]

/-- Claim C3 witness: a non-JSON inference response at the fresh state. -/
theorem C3_invalid_json_no_mutation_witness :
    (upload_book parseFailOracle initState).2.2 = HResult.httpError 500 "Expecting value" ∧
    (upload_book parseFailOracle initState).1.books = initState.books ∧
    (upload_book parseFailOracle initState).1.spreadsheet = initState.spreadsheet ∧
    Event.dbConnect ∉ (upload_book parseFailOracle initState).2.1 ∧
    Event.dbInsert ∉ (upload_book parseFailOracle initState).2.1 ∧
    Event.sheetAppend ∉ (upload_book parseFailOracle initState).2.1 :=
  C3_invalid_json_no_mutation parseFailOracle initState "Expecting value" rfl rfl rfl rfl rfl

/-- Claim C4 fails on the code: when the body read raises after the temp
file was created, temp_path was never assigned (line 67 runs after the
write of line 66), the guard of line 123 is false, and the temp file
survives the request although the claim says it is removed on every
exit path. -/
theorem C4_temp_file_leak_on_read_failure :
    (upload_book readFailOracle initState).1.tempExists = true ∧
    (upload_book readFailOracle initState).2.2 =
      HResult.httpError 500 "client disconnected during read" := by
  constructor <;> rfl

/-- Claim C5: every exception raised in the try body is caught at the
single top boundary and converted into one error response whose detail
is the exception message with the uniform code 500, and no external
call is attempted twice (no retry). -/
theorem C5_uniform_catch_no_retry
    (o : Oracle) (s0 : SysState) (m : String)
    (h : (runBody o s0).2.2 = .error m) :
    (upload_book o s0).2.2 = HResult.httpError 500 m ∧
    (upload_book o s0).2.1.Nodup := by
  constructor
  · have hres : (upload_book o s0).2.2 =
        match (runBody o s0).2.2 with
        | Except.ok book => HResult.success book SUCCESS_MESSAGE
        | Except.error m2 => HResult.httpError 500 m2 := rfl
    rw [hres, h]
  · rw [upload_book_events]
    exact runBody_events_nodup o s0

/-- Claim C5 witness: a failing inference call is surfaced as the
uniform 500 response with the exception message, with a duplicate-free
trace. -/
theorem C5_uniform_catch_no_retry_witness :
    (upload_book generateFailOracle initState).2.2 =
      HResult.httpError 500 "inference timeout" ∧
    (upload_book generateFailOracle initState).2.1.Nodup :=
  C5_uniform_catch_no_retry generateFailOracle initState "inference timeout" rfl

/-- Claim C6 counterexample: with the four database variables set and
the inference API key absent, the startup check of lines 39 and 40
passes, so the process starts; the key is only read inside the handler
on line 70, so its absence does not prevent the endpoint from becoming
reachable, contrary to the claim. -/
theorem C6_startup_ignores_api_key :
    envNoApiKey.GEMINI_API_KEY = none ∧ startupCheck envNoApiKey = Except.ok () :=
  ⟨rfl, rfl⟩

/-- Claim C6 amended: only the four store configuration variables are
checked at process start; if any of them is absent the module-level
check raises and the endpoint never becomes reachable, while the
inference API key is read per request and is not part of the check. -/
theorem C6_missing_db_var_refuses_start
    (e : Env)
    (h : e.DB_HOST = none ∨ e.DB_NAME = none ∨ e.DB_USER = none ∨ e.DB_PASS = none) :
    startupCheck e = Except.error DB_ENV_ERROR := by
  unfold startupCheck
  rcases h with h|h|h|h <;> simp [h, pyTruthy]

/-- Claim C6 amended witness: a missing store host refuses startup. -/
theorem C6_missing_db_var_refuses_start_witness :
    startupCheck envNoHost = Except.error DB_ENV_ERROR :=
  C6_missing_db_var_refuses_start envNoHost (Or.inl rfl)

/-- Claim C7: when the sheet append fails after the commit, the
committed row stays in the books table, the spreadsheet is unchanged,
and the request returns a failure: the insert is not rolled back. -/
theorem C7_no_rollback_on_sheet_failure
    (o : Oracle) (s0 : SysState) (book : Json) (t g : Json) (newId : Int)
    (rs : List SheetRow) (m : String)
    (hct : o.createTemp = .ok ()) (hru : o.readUpload = .ok ())
    (hgu : o.geminiUpload = .ok ()) (hgg : o.geminiGenerate = .ok ())
    (hpr : o.parseResult = .ok book)
    (hT : book.lookup "title" = some t)
    (hG : book.lookup "genre" = some g)
    (hdc : o.dbConnect = .ok ()) (hdi : o.dbInsert = .ok newId)
    (hcm : o.dbCommit = .ok ())
    (hW : s0.spreadsheet.wsRows WORKSHEET_TITLE = some rs)
    (hsa : o.sheetAppend = .error m) :
    (upload_book o s0).1.books = s0.books ++ [(newId, t, g)] ∧
    (upload_book o s0).1.spreadsheet = s0.spreadsheet ∧
    (upload_book o s0).2.2 = HResult.httpError 500 m := by
  unfold upload_book
  simp [runBody, hct, hru, hgu, hgg, hpr, hT, hG, hdc, hdi, hcm, hW, hsa,
        cleanupTemp_books, cleanupTemp_spreadsheet]

/-- Claim C7 witness: a failing append after a committed insert leaves
the row in the table and the sheet untouched. -/
theorem C7_no_rollback_on_sheet_failure_witness :
    (upload_book sheetFailOracle initState).1.books =
      initState.books ++ [(7, Json.str "Dune", Json.str "Science Fiction")] ∧
    (upload_book sheetFailOracle initState).1.spreadsheet = initState.spreadsheet ∧
    (upload_book sheetFailOracle initState).2.2 = HResult.httpError 500 "quota exceeded" :=
  C7_no_rollback_on_sheet_failure sheetFailOracle initState demoBook
    (Json.str "Dune") (Json.str "Science Fiction") 7 [] "quota exceeded"
    rfl rfl rfl rfl rfl rfl rfl rfl rfl rfl rfl rfl

/-- Claim C8: on the success path exactly one row [id, title, genre,
added_at] is appended to the worksheet Sheet1 of the fixed-name
spreadsheet, where id is the generated identifier and added_at is the
current time formatted with the source format string; every other
worksheet and the spreadsheet name are untouched. -/
theorem C8_sheet_row_appended
    (o : Oracle) (s0 : SysState) (book : Json) (t g : Json) (newId : Int)
    (rs : List SheetRow)
    (hct : o.createTemp = .ok ()) (hru : o.readUpload = .ok ())
    (hgu : o.geminiUpload = .ok ()) (hgg : o.geminiGenerate = .ok ())
    (hpr : o.parseResult = .ok book)
    (hT : book.lookup "title" = some t)
    (hG : book.lookup "genre" = some g)
    (hdc : o.dbConnect = .ok ()) (hdi : o.dbInsert = .ok newId)
    (hcm : o.dbCommit = .ok ())
    (hname : s0.spreadsheet.ssName = SHEET_NAME)
    (hW : s0.spreadsheet.wsRows WORKSHEET_TITLE = some rs)
    (hsa : o.sheetAppend = .ok ()) :
    (upload_book o s0).1.spreadsheet.wsRows WORKSHEET_TITLE =
      some (rs ++ [(newId, t, g, strftimeUS o.now)]) ∧
    (upload_book o s0).1.spreadsheet.ssName = SHEET_NAME ∧
    (∀ w, w ≠ WORKSHEET_TITLE →
      (upload_book o s0).1.spreadsheet.wsRows w = s0.spreadsheet.wsRows w) := by
  have hsp : (upload_book o s0).1.spreadsheet =
      s0.spreadsheet.appendToWs WORKSHEET_TITLE (newId, t, g, strftimeUS o.now) := by
    rw [upload_book_state, cleanupTemp_spreadsheet]
    unfold runBody
    simp [hct, hru, hgu, hgg, hpr, hT, hG, hdc, hdi, hcm, hW, hsa, Spreadsheet.appendToWs]
  refine ⟨?_, ?_, ?_⟩
  · rw [hsp]
    exact wsRows_appendToWs_self s0.spreadsheet WORKSHEET_TITLE _ rs hW
  · rw [hsp, appendToWs_ssName]
    exact hname
  · intro w hw
    rw [hsp]
    exact wsRows_appendToWs_other s0.spreadsheet WORKSHEET_TITLE w _ hw

/-- Claim C8 witness: the Dune scenario appends the single sheet row
with the generated id and the formatted timestamp. -/
theorem C8_sheet_row_appended_witness :
    (upload_book okOracle initState).1.spreadsheet.wsRows WORKSHEET_TITLE =
      some ([] ++ [(7, Json.str "Dune", Json.str "Science Fiction", strftimeUS okOracle.now)]) ∧
    (upload_book okOracle initState).1.spreadsheet.ssName = SHEET_NAME ∧
    (∀ w, w ≠ WORKSHEET_TITLE →
      (upload_book okOracle initState).1.spreadsheet.wsRows w =
        initState.spreadsheet.wsRows w) :=
  C8_sheet_row_appended okOracle initState demoBook
    (Json.str "Dune") (Json.str "Science Fiction") 7 []
    rfl rfl rfl rfl rfl rfl rfl rfl rfl rfl rfl rfl rfl

/-- Claim C9: the book field of the success body is the parsed JSON
object verbatim: any fields beyond title and genre are returned to the
client unfiltered. -/
theorem C9_book_passthrough
    (o : Oracle) (s0 : SysState) (fields : List (String × Json)) (t g : Json) (newId : Int)
    (rs : List SheetRow)
    (hct : o.createTemp = .ok ()) (hru : o.readUpload = .ok ())
    (hgu : o.geminiUpload = .ok ()) (hgg : o.geminiGenerate = .ok ())
    (hpr : o.parseResult = .ok (Json.obj fields))
    (hT : lookupField fields "title" = some t)
    (hG : lookupField fields "genre" = some g)
    (hdc : o.dbConnect = .ok ()) (hdi : o.dbInsert = .ok newId)
    (hcm : o.dbCommit = .ok ())
    (hW : s0.spreadsheet.wsRows WORKSHEET_TITLE = some rs)
    (hsa : o.sheetAppend = .ok ()) :
    (upload_book o s0).2.2 = HResult.success (Json.obj fields) SUCCESS_MESSAGE := by
  unfold upload_book
  simp [runBody, hct, hru, hgu, hgg, hpr, Json.lookup, hT, hG, hdc, hdi, hcm, hW, hsa]

/-- Claim C9 witness: an inference object carrying an extra author
field is returned whole, extra field included. -/
theorem C9_book_passthrough_witness :
    (upload_book extraFieldOracle initState).2.2 =
      HResult.success extraFieldBook SUCCESS_MESSAGE :=
  C9_book_passthrough extraFieldOracle initState
    [("title", Json.str "Dune"), ("genre", Json.str "Science Fiction"),
     ("author", Json.str "Frank Herbert")]
    (Json.str "Dune") (Json.str "Science Fiction") 7 []
    rfl rfl rfl rfl rfl rfl rfl rfl rfl rfl rfl rfl

/-- Claim C10: every failure response produced by upload_book carries
status code exactly 500, whatever stage failed. -/
theorem C10_failure_code_is_500
    (o : Oracle) (s0 : SysState) (c : Nat) (d : String)
    (h : (upload_book o s0).2.2 = HResult.httpError c d) :
    c = 500 := by
  have hres : (upload_book o s0).2.2 =
      match (runBody o s0).2.2 with
      | Except.ok book => HResult.success book SUCCESS_MESSAGE
      | Except.error m2 => HResult.httpError 500 m2 := rfl
  rw [hres] at h
  rcases hr : (runBody o s0).2.2 with m | b <;> rw [hr] at h
  · exact ((HResult.httpError.injEq 500 m c d ▸ h).1).symm
  · exact absurd h (by simp)

/-- Claim C10 witness: a failing insert yields the 500 code. -/
theorem C10_failure_code_is_500_witness : (500 : Nat) = 500 :=
  C10_failure_code_is_500 dbInsertFailOracle initState 500 "duplicate key" rfl

end HomeLibrary
